import Mathlib

/-!
Verification of the MotorCalc motor-performance model (src/src/main.cpp).

The C++ `FloatType` is `long double`; it is idealized here as the real
numbers `ℝ`, so every numeric literal below denotes the exact rational
written in the source.  All definitions are transcribed from
src/src/main.cpp; line numbers are cited in the doc comments.
-/

namespace MotorCalc

open Real

/-- Nameplate parameters, embedded from `struct ValueSet` (main.cpp 204–240).
The five data members, in declaration order: `kv`, `voltage`,
`noLoadCurrent`, `maxCurrent`, `armatureR` (milliohms). -/
structure ValueSet where
  kv : ℝ
  voltage : ℝ
  noLoadCurrent : ℝ
  maxCurrent : ℝ
  armatureR : ℝ

/-- The member `kt = 1352.l / kv * .00706155181422604375l` (main.cpp 210).
Note that the source folds the `0.00706…` scale factor into `kt` itself. -/
noncomputable def ValueSet.kt (v : ValueSet) : ℝ :=
  1352 / v.kv * 0.00706155181422604375

/-- `ValueSet::motorPower` (main.cpp 234–239).  Its parameter is a torque in
newton-meters: it recovers the current from the torque, computes the rpm with
the resistive voltage drop, and returns `torque * rpm * pi / 30`. -/
noncomputable def ValueSet.motorPower (v : ValueSet) (torque : ℝ) : ℝ :=
  let current := torque / v.kt + v.noLoadCurrent
  let rpm := v.kv * (v.voltage - current * v.armatureR / 1000)
  torque * rpm * Real.pi / 30

/-- `enum class ValToFind` (main.cpp 242). -/
inductive ValToFind where
  | Power : ValToFind
  | Efficiency : ValToFind

/-- `findMax` (main.cpp 249–254): the closed-form analytic optimum,
`(noLoadCurrent + 1000·voltage/armatureR) / 2` for power and
`sqrt(noLoadCurrent · 1000·voltage/armatureR)` for efficiency.
It performs no clamping to the validated current range. -/
noncomputable def findMax (values : ValueSet) (val : ValToFind) : ℝ :=
  match val with
  | ValToFind.Power => (values.noLoadCurrent + 1000 * values.voltage / values.armatureR) / 2
  | ValToFind.Efficiency =>
      Real.sqrt (values.noLoadCurrent * (1000 * values.voltage / values.armatureR))

/-- `findMax` with the division `1000 * voltage / armatureR` guarded:
the source divides by `armatureR` unconditionally, so the guarded embedding
returns `none` exactly when `armatureR = 0`. -/
noncomputable def findMaxChecked (values : ValueSet) (val : ValToFind) : Option ℝ :=
  if values.armatureR = 0 then none else some (findMax values val)

/-- `struct Values` (main.cpp 356–377), the per-current operating point with
members `current, rpm, torque, powerIn, powerOut, efficiency`. -/
structure Values where
  current : ℝ
  rpm : ℝ
  torque : ℝ
  powerIn : ℝ
  powerOut : ℝ
  efficiency : ℝ

/-- The `Values` constructor (main.cpp 360–365).  It initializes `current`
and assigns `powerOut = motorPower(current)` (passing the current where
`motorPower` expects a torque), `powerIn = voltage * current` and
`efficiency = powerOut * 100 / powerIn`.  The members `rpm` and `torque`
are never assigned, so the embedding takes their indeterminate initial
contents as the explicit arguments `rpmInit` and `torqueInit`. -/
noncomputable def Values.make (values : ValueSet) (currentIn rpmInit torqueInit : ℝ) :
    Values :=
  let powerOut := values.motorPower currentIn
  let powerIn := values.voltage * currentIn
  ⟨currentIn, rpmInit, torqueInit, powerIn, powerOut, powerOut * 100 / powerIn⟩

/-- The two fatal validation outcomes (main.cpp 335–347). -/
inductive ValidationError where
  | TooNarrowRange : ValidationError
  | OpenCircuitAtNoLoad : ValidationError

/-- The range validation and clamping step at the top of `main`
(main.cpp 335–354), run once before any search:
reject `TooNarrowRange` if `maxCurrent - noLoadCurrent < 0.01`;
otherwise reject `OpenCircuitAtNoLoad` if
`(noLoadCurrent + 0.0001) * armatureR / 1000 > voltage`;
otherwise, if `maxCurrent * armatureR / 1000 >= voltage`, replace
`maxCurrent` by `voltage / (armatureR / 1000) + 0.0001` and continue with a
warning (the `Bool` component is `true` when the warning fired). -/
noncomputable def validateAndClamp (v : ValueSet) :
    Except ValidationError (ValueSet × Bool) :=
  if v.maxCurrent - v.noLoadCurrent < 0.01 then
    Except.error ValidationError.TooNarrowRange
  else if (v.noLoadCurrent + 0.0001) * v.armatureR / 1000 > v.voltage then
    Except.error ValidationError.OpenCircuitAtNoLoad
  else if v.maxCurrent * v.armatureR / 1000 ≥ v.voltage then
    Except.ok (ValueSet.mk v.kv v.voltage v.noLoadCurrent
      (v.voltage / (v.armatureR / 1000) + 0.0001) v.armatureR, true)
  else
    Except.ok (v, false)

/-- The concrete scenario from the spec: `kv=1000, voltage=11.1,
noLoadCurrent=0.5, maxCurrent=20, armatureR=100` (milliohms). -/
noncomputable def scenario : ValueSet :=
  ValueSet.mk 1000 11.1 0.5 20 100

/-- The rejection scenario from the spec: `noLoadCurrent=5, maxCurrent=5.005`
(the other fields are arbitrary representatives). -/
noncomputable def narrowRangeInput : ValueSet :=
  ValueSet.mk 1000 11.1 5 5.005 100

/-- A parameter set that passes validation unchanged while the analytic
power optimum `(1 + 10)/2 = 5.5` exceeds `maxCurrent = 2`. -/
noncomputable def smallRangeInput : ValueSet :=
  ValueSet.mk 100 10 1 2 1000

/-- A parameter set rejected as an open circuit near no load:
`(5 + 0.0001) * 1000000 / 1000 = 5000.1 > 1`. -/
noncomputable def openCircuitInput : ValueSet :=
  ValueSet.mk 1000 1 5 20 1000000

/-- A parameter set whose `maxCurrent` gets clamped:
`30 * 2000 / 1000 = 60 ≥ 10`, so `maxCurrent` becomes `10/2 + 0.0001`. -/
noncomputable def clampedInput : ValueSet :=
  ValueSet.mk 1000 10 1 30 2000

/-- A zero-resistance parameter set: admitted by the data model
(`armatureResistance ≥ 0`) and accepted by every validation check. -/
noncomputable def zeroResistanceInput : ValueSet :=
  ValueSet.mk 1000 11.1 0.5 20 0

/-- The exact rational value of `kt` for the concrete scenario:
`1352 / 1000 * 0.00706155181422604375`. -/
theorem scenario_kt : ValueSet.kt scenario = 0.00954721805283361115 := by
  norm_num [ValueSet.kt, scenario]

/-- Claim C6: validation fails with `TooNarrowRange` if and only if
`maxCurrent - noLoadCurrent < 0.01`, and in particular the input with
`noLoadCurrent = 5`, `maxCurrent = 5.005` is rejected as `TooNarrowRange`. -/
theorem validate_tooNarrowRange_iff :
    (∀ v : ValueSet,
        validateAndClamp v = Except.error ValidationError.TooNarrowRange ↔
          v.maxCurrent - v.noLoadCurrent < 0.01) ∧
      validateAndClamp narrowRangeInput =
        Except.error ValidationError.TooNarrowRange := by
  constructor
  · intro v
    constructor
    · intro h
      by_contra hc
      unfold validateAndClamp at h
      rw [if_neg hc] at h
      split_ifs at h
      all_goals simp at h
    · intro hc
      unfold validateAndClamp
      rw [if_pos hc]
  · unfold validateAndClamp narrowRangeInput
    rw [if_pos (by norm_num)]

/-- Claim C7: among parameters not rejected as `TooNarrowRange`, validation
fails with `OpenCircuitAtNoLoad` if and only if
`(noLoadCurrent + 0.0001) * armatureR / 1000 > voltage`. -/
theorem validate_openCircuit_iff (v : ValueSet)
    (h : ¬(v.maxCurrent - v.noLoadCurrent < 0.01)) :
    validateAndClamp v = Except.error ValidationError.OpenCircuitAtNoLoad ↔
      (v.noLoadCurrent + 0.0001) * v.armatureR / 1000 > v.voltage := by
  unfold validateAndClamp
  rw [if_neg h]
  constructor
  · intro h2
    by_contra hc
    rw [if_neg hc] at h2
    split_ifs at h2
  · intro hc
    rw [if_pos hc]

/-- Witness for claim C7: `openCircuitInput` passes the narrow-range check
and is rejected as an open circuit at no load. -/
theorem validate_openCircuit_iff_witness :
    validateAndClamp openCircuitInput =
      Except.error ValidationError.OpenCircuitAtNoLoad := by
  have h : ¬(openCircuitInput.maxCurrent - openCircuitInput.noLoadCurrent < 0.01) := by
    norm_num [openCircuitInput]
  exact (validate_openCircuit_iff openCircuitInput h).mpr (by norm_num [openCircuitInput])

/-- Claim C8: for parameters passing both rejection checks, validation
succeeds; it replaces `maxCurrent` by `voltage / (armatureR / 1000) + 0.0001`
(with a warning) exactly when `maxCurrent * armatureR / 1000 ≥ voltage`, and
leaves it unchanged otherwise; and in every successful outcome the fields
`kv`, `voltage`, `noLoadCurrent` and `armatureR` are unchanged. -/
theorem validate_clamp_frame (v : ValueSet)
    (h1 : ¬(v.maxCurrent - v.noLoadCurrent < 0.01))
    (h2 : ¬((v.noLoadCurrent + 0.0001) * v.armatureR / 1000 > v.voltage)) :
    (v.maxCurrent * v.armatureR / 1000 ≥ v.voltage →
        validateAndClamp v = Except.ok (ValueSet.mk v.kv v.voltage v.noLoadCurrent
          (v.voltage / (v.armatureR / 1000) + 0.0001) v.armatureR, true)) ∧
      (¬(v.maxCurrent * v.armatureR / 1000 ≥ v.voltage) →
        validateAndClamp v = Except.ok (v, false)) ∧
      ∀ w : ValueSet, ∀ b : Bool, validateAndClamp v = Except.ok (w, b) →
        w.kv = v.kv ∧ w.voltage = v.voltage ∧ w.noLoadCurrent = v.noLoadCurrent ∧
          w.armatureR = v.armatureR := by
  refine ⟨?_, ?_, ?_⟩
  · intro h3
    unfold validateAndClamp
    rw [if_neg h1, if_neg h2, if_pos h3]
  · intro h3
    unfold validateAndClamp
    rw [if_neg h1, if_neg h2, if_neg h3]
  · intro w b h3
    unfold validateAndClamp at h3
    rw [if_neg h1, if_neg h2] at h3
    split_ifs at h3 with h4
    · simp only [Except.ok.injEq, Prod.mk.injEq] at h3
      rw [← h3.1]
      simp
    · simp only [Except.ok.injEq, Prod.mk.injEq] at h3
      rw [← h3.1]
      simp

/-- Witness for claim C8: `clampedInput` passes both rejection checks and has
its `maxCurrent` clamped to `10 / (2000 / 1000) + 0.0001`, every other field
untouched. -/
theorem validate_clamp_frame_witness :
    validateAndClamp clampedInput =
      Except.ok (ValueSet.mk 1000 10 1 (10 / (2000 / 1000) + 0.0001) 2000, true) := by
  have h1 : ¬(clampedInput.maxCurrent - clampedInput.noLoadCurrent < 0.01) := by
    norm_num [clampedInput]
  have h2 : ¬((clampedInput.noLoadCurrent + 0.0001) * clampedInput.armatureR / 1000 >
      clampedInput.voltage) := by
    norm_num [clampedInput]
  have h3 : clampedInput.maxCurrent * clampedInput.armatureR / 1000 ≥
      clampedInput.voltage := by
    norm_num [clampedInput]
  have h4 := (validate_clamp_frame clampedInput h1 h2).1 h3
  simpa [clampedInput] using h4

/-- Claim C9: with every other field held fixed, a strictly larger (positive)
armature resistance never increases the power-optimal current returned by the
search.  The hypotheses `0 < voltage` and `0 < armatureR` are the data-model
invariants of validated parameters. -/
theorem powerPeak_antitone_in_resistance (v : ValueSet) (r2 : ℝ)
    (hV : 0 < v.voltage) (hr1 : 0 < v.armatureR) (hr : v.armatureR < r2) :
    findMax (ValueSet.mk v.kv v.voltage v.noLoadCurrent v.maxCurrent r2)
        ValToFind.Power ≤ findMax v ValToFind.Power := by
  unfold findMax
  dsimp only
  have h : 1000 * v.voltage / r2 ≤ 1000 * v.voltage / v.armatureR := by
    gcongr
  linarith

/-- Witness for claim C9: doubling the scenario resistance to 200 mΩ does not
increase the power-optimal current. -/
theorem powerPeak_antitone_in_resistance_witness :
    findMax (ValueSet.mk 1000 11.1 0.5 20 200) ValToFind.Power ≤
      findMax scenario ValToFind.Power := by
  have h := powerPeak_antitone_in_resistance scenario 200 (by norm_num [scenario])
    (by norm_num [scenario]) (by norm_num [scenario])
  simpa [scenario] using h

/-- Claim C10: a zero armature resistance is accepted by every validation
check (each resistive-drop product is zero), yet both closed-form peak
formulas divide `1000 * voltage` by `armatureR`; under guarded division the
error branch of the search is reached from validated input. -/
theorem zero_resistance_reaches_division_guard (v : ValueSet)
    (hR : v.armatureR = 0) (hV : 0 < v.voltage)
    (hRange : 0.01 ≤ v.maxCurrent - v.noLoadCurrent) :
    validateAndClamp v = Except.ok (v, false) ∧
      ∀ val : ValToFind, findMaxChecked v val = none := by
  constructor
  · unfold validateAndClamp
    rw [if_neg (by linarith), if_neg (by rw [hR]; simp; linarith),
      if_neg (by rw [hR]; simp; linarith)]
  · intro val
    unfold findMaxChecked
    rw [if_pos hR]

/-- Witness for claim C10: the scenario parameters with the resistance set to
zero are validated unchanged while both guarded searches report the division
error. -/
theorem zero_resistance_reaches_division_guard_witness :
    validateAndClamp zeroResistanceInput = Except.ok (zeroResistanceInput, false) ∧
      findMaxChecked zeroResistanceInput ValToFind.Power = none ∧
      findMaxChecked zeroResistanceInput ValToFind.Efficiency = none := by
  have h := zero_resistance_reaches_division_guard zeroResistanceInput
    (by norm_num [zeroResistanceInput]) (by norm_num [zeroResistanceInput])
    (by norm_num [zeroResistanceInput])
  exact ⟨h.1, h.2 ValToFind.Power, h.2 ValToFind.Efficiency⟩

/-- Counterexample for claim C2: `smallRangeInput` passes validation
unchanged, yet the search returns `(1 + 10) / 2 = 5.5`, strictly above
`maxCurrent = 2` — the result is not confined to the validated interval and
is not clamped to its boundary. -/
theorem findMax_escapes_validated_interval :
    validateAndClamp smallRangeInput = Except.ok (smallRangeInput, false) ∧
      findMax smallRangeInput ValToFind.Power = 5.5 ∧
      ¬(findMax smallRangeInput ValToFind.Power ≤ smallRangeInput.maxCurrent) := by
  refine ⟨?_, ?_, ?_⟩
  · unfold validateAndClamp
    rw [if_neg (by norm_num [smallRangeInput]), if_neg (by norm_num [smallRangeInput]),
      if_neg (by norm_num [smallRangeInput])]
  · norm_num [findMax, smallRangeInput]
  · norm_num [findMax, smallRangeInput]

/-- Claim C2 (amended): the search returns the unclamped analytic optimum —
`(noLoadCurrent + 1000·voltage/armatureR) / 2` for power — and for parameters
that pass validation (with the data-model invariants `0 < armatureR` and
`0 ≤ noLoadCurrent`) both returned currents are at least `noLoadCurrent`,
strictly above it for power; they are not confined to
`[noLoadCurrent + 0.0001, maxCurrent]`. -/
theorem findMax_unclamped_above_noLoad (v : ValueSet) (w : ValueSet) (b : Bool)
    (hok : validateAndClamp v = Except.ok (w, b))
    (hR : 0 < v.armatureR) (hI0 : 0 ≤ v.noLoadCurrent) :
    findMax v ValToFind.Power =
        (v.noLoadCurrent + 1000 * v.voltage / v.armatureR) / 2 ∧
      v.noLoadCurrent < findMax v ValToFind.Power ∧
      v.noLoadCurrent ≤ findMax v ValToFind.Efficiency := by
  have h2 : ¬((v.noLoadCurrent + 0.0001) * v.armatureR / 1000 > v.voltage) := by
    intro hgt
    unfold validateAndClamp at hok
    split_ifs at hok
  push_neg at h2
  have hIsc : v.noLoadCurrent + 0.0001 ≤ 1000 * v.voltage / v.armatureR := by
    rw [le_div_iff₀ hR]
    rw [div_le_iff₀ (by norm_num : (0:ℝ) < 1000)] at h2
    linarith
  refine ⟨rfl, ?_, ?_⟩
  · unfold findMax
    dsimp only
    linarith
  · unfold findMax
    dsimp only
    have hsq : v.noLoadCurrent ^ 2 ≤
        v.noLoadCurrent * (1000 * v.voltage / v.armatureR) := by
      nlinarith
    exact Real.le_sqrt_of_sq_le hsq

/-- Witness for claim C2 (amended): at the concrete scenario both peak
currents are at least the no-load current. -/
theorem findMax_unclamped_above_noLoad_witness :
    scenario.noLoadCurrent < findMax scenario ValToFind.Power ∧
      scenario.noLoadCurrent ≤ findMax scenario ValToFind.Efficiency := by
  have hok : validateAndClamp scenario = Except.ok (scenario, false) := by
    unfold validateAndClamp
    rw [if_neg (by norm_num [scenario]), if_neg (by norm_num [scenario]),
      if_neg (by norm_num [scenario])]
  have h := findMax_unclamped_above_noLoad scenario scenario false hok
    (by norm_num [scenario]) (by norm_num [scenario])
  exact ⟨h.2.1, h.2.2⟩

/-- Claim C4 (code evaluation): at the scenario parameters with current 1 A
and zeroed initial memory, the `rpm` member differs from the spec's speed
`(voltage - current·armatureR/1000)·kv = 11000` and the `torque` member
differs from the spec's `1352/kv·(current - noLoadCurrent)·0.00706`: the
constructor never assigns either member. -/
theorem rpm_torque_left_undefined :
    (Values.make scenario 1 0 0).rpm ≠
        (scenario.voltage - 1 * scenario.armatureR / 1000) * scenario.kv ∧
      (Values.make scenario 1 0 0).torque ≠
        1352 / scenario.kv * (1 - scenario.noLoadCurrent) * 0.00706 := by
  constructor
  · norm_num [Values.make, scenario]
  · norm_num [Values.make, scenario]

/-- Claim C5: the four members the constructor assigns (`current`, `powerIn`,
`powerOut`, `efficiency`) are identical between two evaluations at the same
`(parameters, current)` pair, but `rpm` (likewise `torque`) retains its
indeterminate initial contents, so two evaluations with identical inputs need
not produce identical records. -/
theorem evaluate_assigned_fields_deterministic :
    (∀ (v : ValueSet) (c r1 t1 r2 t2 : ℝ),
        (Values.make v c r1 t1).current = (Values.make v c r2 t2).current ∧
        (Values.make v c r1 t1).powerIn = (Values.make v c r2 t2).powerIn ∧
        (Values.make v c r1 t1).powerOut = (Values.make v c r2 t2).powerOut ∧
        (Values.make v c r1 t1).efficiency = (Values.make v c r2 t2).efficiency) ∧
      (Values.make scenario 1 0 0).rpm ≠ (Values.make scenario 1 11000 0).rpm := by
  constructor
  · intro v c r1 t1 r2 t2
    refine ⟨rfl, rfl, rfl, rfl⟩
  · norm_num [Values.make]

/-- Claim C1 (code evaluation): at the scenario parameters and the in-range
current 1 A, the computed `powerOut` is not
`torque · speed · (2π/60)` with `torque = 1352/kv · (current − noLoadCurrent)
· 0.00706` and `speed = (voltage − current·armatureR/1000) · kv`: the
constructor hands the current itself to `motorPower`, which interprets it as
a torque. -/
theorem powerOut_differs_from_spec_formula :
    (Values.make scenario 1 0 0).powerOut ≠
      1352 / scenario.kv * (1 - scenario.noLoadCurrent) * 0.00706 *
        ((scenario.voltage - 1 * scenario.armatureR / 1000) * scenario.kv) *
        (2 * Real.pi / 60) := by
  have hk := scenario_kt
  simp only [Values.make, ValueSet.motorPower, hk]
  simp only [scenario]
  intro h
  ring_nf at h
  nlinarith [Real.pi_pos]

/-- The closed-form power-peak current at the scenario parameters:
`(0.5 + 1000·11.1/100) / 2 = 55.75`. -/
theorem scenario_findMax_power : findMax scenario ValToFind.Power = 55.75 := by
  norm_num [findMax, scenario]

/-- The closed-form efficiency-peak current at the scenario parameters:
`sqrt (0.5 · 1000·11.1/100) = sqrt 55.5`. -/
theorem scenario_findMax_efficiency :
    findMax scenario ValToFind.Efficiency = Real.sqrt 55.5 := by
  norm_num [findMax, scenario]

/-- At the scenario parameters the computed efficiency is an affine,
strictly decreasing function of the evaluated current (for nonzero current):
the current cancels between `powerOut` and `powerIn`. -/
theorem scenario_efficiency_linear (c r t : ℝ) (hc : c ≠ 0) :
    (Values.make scenario c r t).efficiency =
      (11.1 - (c / 0.00954721805283361115 + 0.5) / 10) *
        (100000 * Real.pi / 333) := by
  have hk := scenario_kt
  simp only [Values.make, ValueSet.motorPower, hk]
  simp only [scenario]
  field_simp
  ring

/-- Counterexample for claim C3: at the scenario parameters the power peak
returned by the search is 55.75 A, which is not strictly between the no-load
current and the maximum current — it exceeds `maxCurrent = 20`. -/
theorem scenario_power_peak_escapes :
    validateAndClamp scenario = Except.ok (scenario, false) ∧
      ¬(findMax scenario ValToFind.Power < scenario.maxCurrent) := by
  constructor
  · unfold validateAndClamp
    rw [if_neg (by norm_num [scenario]), if_neg (by norm_num [scenario]),
      if_neg (by norm_num [scenario])]
  · rw [scenario_findMax_power]
    norm_num [scenario]

/-- Claim C3 (amended): the scenario parameters pass validation unchanged;
the power search returns 55.75 A — strictly above the no-load current but
also above `maxCurrent = 20`, not strictly between them; the evaluation
there reports a negative `powerOut`; and its efficiency is strictly less
than the efficiency at the current returned by the efficiency search. -/
theorem scenario_peaks_amended :
    validateAndClamp scenario = Except.ok (scenario, false) ∧
      findMax scenario ValToFind.Power = 55.75 ∧
      scenario.noLoadCurrent < findMax scenario ValToFind.Power ∧
      scenario.maxCurrent < findMax scenario ValToFind.Power ∧
      (Values.make scenario (findMax scenario ValToFind.Power) 0 0).powerOut < 0 ∧
      (Values.make scenario (findMax scenario ValToFind.Power) 0 0).efficiency <
        (Values.make scenario (findMax scenario ValToFind.Efficiency) 0 0).efficiency := by
  have hp := scenario_findMax_power
  have he := scenario_findMax_efficiency
  refine ⟨?_, hp, ?_, ?_, ?_, ?_⟩
  · unfold validateAndClamp
    rw [if_neg (by norm_num [scenario]), if_neg (by norm_num [scenario]),
      if_neg (by norm_num [scenario])]
  · rw [hp]
    norm_num [scenario]
  · rw [hp]
    norm_num [scenario]
  · rw [hp]
    have hk := scenario_kt
    simp only [Values.make, ValueSet.motorPower, hk]
    simp only [scenario]
    have h1 : (1000 : ℝ) *
        (11.1 - (55.75 / 0.00954721805283361115 + 0.5) * 100 / 1000) < 0 := by
      norm_num
    nlinarith [Real.pi_pos]
  · rw [hp, he]
    have hs0 : (0 : ℝ) < Real.sqrt 55.5 := Real.sqrt_pos.mpr (by norm_num)
    have h8 : Real.sqrt 55.5 < 8 := by
      rw [Real.sqrt_lt' (by norm_num : (0:ℝ) < 8)]
      norm_num
    rw [scenario_efficiency_linear 55.75 0 0 (by norm_num),
      scenario_efficiency_linear (Real.sqrt 55.5) 0 0 (ne_of_gt hs0)]
    have hC : (0 : ℝ) < 100000 * Real.pi / 333 := by positivity
    apply mul_lt_mul_of_pos_right ?_ hC
    have hdiv : Real.sqrt 55.5 / 0.00954721805283361115 <
        55.75 / 0.00954721805283361115 := by
      rw [div_lt_div_iff_of_pos_right (by norm_num : (0:ℝ) < 0.00954721805283361115)]
      linarith
    linarith

end MotorCalc
